import Mathlib

/-!
Verification development for the SDLC analysis workflow
(`sdlc_agents/agents/analysis_workflow.py` and the agents it drives).

The Python code is shallowly embedded: Python strings become `String`,
dicts with a fixed consumed key set become structures, the mutable
`AnalysisState` pydantic record becomes an immutable structure threaded
through the handlers, and file writes performed by `save_artifact` are
recorded in an explicit event trace.  Exceptions that the source raises
and catches at the same phase boundary are embedded as the branch the
handler takes after catching them.
-/

/-- Python string-whitespace class (the ASCII part, which is all the
embedded code and inputs use): the characters stripped by `str.strip` and
matched by the regex class `\s`. -/
def isPyWs (c : Char) : Bool :=
  c = ' ' || c = '\t' || c = '\n' || c = '\r' || c = '\x0b' || c = '\x0c'

/-- Python `str.strip()` (ASCII whitespace), implemented over the
character list so concrete runs reduce inside the kernel. -/
def pyStrip (s : String) : String :=
  String.mk (((s.data.dropWhile isPyWs).reverse.dropWhile isPyWs).reverse)

/-- Leading-whitespace removal, used to embed a `\s*` regex gap. -/
def pyLStrip (s : String) : String :=
  String.mk (s.data.dropWhile isPyWs)

/-- Python `str.lower()` (ASCII case mapping, which is all the embedded
comparisons depend on). -/
def pyLower (s : String) : String :=
  String.mk (s.data.map Char.toLower)

/-- List prefix test for characters. -/
def isPrefixList : List Char → List Char → Bool
  | [], _ => true
  | _ :: _, [] => false
  | a :: as, b :: bs => a == b && isPrefixList as bs

/-- Python `s.startswith(pre)`. -/
def pyStartsWith (s pre : String) : Bool :=
  isPrefixList pre.data s.data

/-- Python slicing `s[n:]`. -/
def pyDrop (s : String) (n : Nat) : String :=
  String.mk (s.data.drop n)

/-- Python `len(s)`. -/
def pyLen (s : String) : Nat :=
  s.data.length

/-- Occurrence test for a pattern inside a character list. -/
def containsList (pat : List Char) : List Char → Bool
  | [] => isPrefixList pat []
  | c :: rest => isPrefixList pat (c :: rest) || containsList pat rest

/-- Left-to-right non-overlapping split on a nonempty separator; the fuel
(initially the list length, which every step decreases at least by one)
makes the recursion structural. -/
def splitOnAux (sep : List Char) : Nat → List Char → List Char → List (List Char)
  | _, [], acc => [acc.reverse]
  | 0, l, acc => [acc.reverse ++ l]
  | fuel + 1, c :: rest, acc =>
    if isPrefixList sep (c :: rest) then
      acc.reverse :: splitOnAux sep fuel (List.drop (sep.length - 1) rest) []
    else
      splitOnAux sep fuel rest (c :: acc)

/-- Python `s.split(sep)` for a nonempty separator (empty pieces kept). -/
def pySplitOn (s sep : String) : List String :=
  (splitOnAux sep.data s.data.length s.data []).map String.mk

/-- Python `sep.join(xs)`. -/
def pyJoin (sep : String) : List String → String
  | [] => ""
  | [x] => x
  | x :: xs => x ++ sep ++ pyJoin sep xs

/-- Workflow graph nodes of `create_workflow`: the three added nodes plus
the LangGraph END sentinel. -/
inductive Node where
  | analyze
  | validate
  | human
  | done
deriving DecidableEq, Repr

/-- Scan result for one required section of the validator
(`OutputValidationAgent._validate_acceptance_criteria`).  The source keeps
per-section dicts with keys found / content / line_number / required; the
line_number bookkeeping is never read by any consumer and is omitted. -/
structure SectionScan where
  acceptance_criteria_heading_found : Bool := false
  acceptance_criteria_heading_content : String := ""
  user_story_found : Bool := false
  user_story_content : String := ""
  functional_criteria_found : Bool := false
  functional_criteria_content : List String := []
  non_functional_criteria_found : Bool := false
  non_functional_criteria_content : List String := []
  validation_methods_found : Bool := false
  validation_methods_content : String := ""
  open_questions_found : Bool := false
  open_questions_content : String := ""
deriving DecidableEq, Repr

/-- One entry of `validation_details["failures"]`.  The source also stores
an expected_format / line_number field; only the reason text is ever
consumed (to build the overall reason string), the section name is kept
for fidelity. -/
structure VFailure where
  sectionName : String
  reason : String
deriving DecidableEq, Repr

/-- The `validation_details` dict returned by the validator: sections
summary, overall reason string, itemized failures. -/
structure VDetails where
  sections : SectionScan
  reason : String
  failures : List VFailure
deriving DecidableEq, Repr

/-- Values stored in the `metadata` mapping of the workflow state.
`str`/`num` cover the analysis-agent metadata, `details` the dict stored
by a completed validation, `errDetails` the dict stored by the except
branch of `_validate_criteria` (keys status/message, no reason key), and
`humanReviewed` the dict stored by a successful human intervention. -/
inductive MetaVal where
  | str (s : String)
  | num (n : Nat)
  | details (d : VDetails)
  | errDetails (msg : String)
  | humanReviewed
deriving DecidableEq, Repr

/-- Python `d.get("reason", default)` on a metadata value: only the
validator details dict carries a reason key. -/
def reasonOf : MetaVal → Option String
  | MetaVal.details d => some d.reason
  | _ => none

/-- Python dict lookup on the metadata mapping. -/
def dictGet : List (String × MetaVal) → String → Option MetaVal
  | [], _ => none
  | (k, v) :: rest, key => if k = key then some v else dictGet rest key

/-- Python dict assignment `m[key] = v`: replace in place when the key is
present (keys in the embedded mappings are unique), append otherwise. -/
def dictSet : List (String × MetaVal) → String → MetaVal → List (String × MetaVal)
  | [], key, v => [(key, v)]
  | (k, w) :: rest, key, v =>
      if k = key then (key, v) :: rest else (k, w) :: dictSet rest key v

/-- The `AnalysisState` pydantic model, with its field defaults. -/
structure AnalysisState where
  requirements : String := ""
  acceptance_criteria : String := ""
  validation_status : Bool := false
  retry_count : Nat := 0
  error_message : String := ""
  metadata : List (String × MetaVal) := []
  is_complete : Bool := false
  current_step : String := "analyze"
deriving DecidableEq, Repr

/-- Observable effects of a run: a node handler invocation by the driver,
or a `save_artifact` file write. -/
inductive Event where
  | invoke (n : Node)
  | write (path : String) (content : String)
deriving DecidableEq, Repr

/-- config.ACCEPTANCE_CRITERIA_PATH (= OUTPUT_DIR / "AcceptanceCriteria.md"). -/
def ACCEPTANCE_CRITERIA_PATH : String := "output/AcceptanceCriteria.md"

/-- config.DESIGN_DOC_PATH. -/
def DESIGN_DOC_PATH : String := "output/DesignDocument.md"

/-- config.DEVELOPER_DOC_PATH. -/
def DEVELOPER_DOC_PATH : String := "output/DeveloperDocument.md"

/-- config.GENERATED_CODE_PATH. -/
def GENERATED_CODE_PATH : String := "output/generated_code.txt"

/-- `AnalysisWorkflow.max_retries` (hardcoded 3 in `__init__`). -/
def max_retries : Nat := 3

/-- Python substring test `pat in s` (for the nonempty literal patterns
used by the source). -/
def strContains (s pat : String) : Bool :=
  containsList pat.data s.data

/-- `AnalysisAgent._format_requirements`: strip each entry, drop a leading
"1."–"5." enumerator, keep nonempty entries as "- ..." bullets, fall back
to a fixed bullet when nothing remains. -/
def format_requirements (requirements : List String) : String :=
  let formatted := requirements.filterMap (fun req0 =>
    let req1 := pyStrip req0
    let req2 :=
      if pyStartsWith req1 "1." ∨ pyStartsWith req1 "2." ∨ pyStartsWith req1 "3." ∨
         pyStartsWith req1 "4." ∨ pyStartsWith req1 "5." then
        pyStrip (pyDrop req1 2)
      else req1
    if req2 = "" then none else some ("- " ++ req2))
  if formatted.isEmpty then "- No specific requirements provided"
  else pyJoin "\n" formatted

/-- The section-scanning loop of `AnalysisAgent._generate_acceptance_criteria`
over `sections[1:]`: a "Functional Requirements:" / "Non-functional
Requirements:" marker switches the current bucket, other nonempty stripped
sections are appended to the current bucket.  The accumulator is
(current bucket, functional list, non-functional list), lists kept in
source order. -/
def extractReqs : List String → Option Bool → List String × List String
  | [], _ => ([], [])
  | sec :: rest, cur =>
    let s := pyStrip sec
    if strContains s "Functional Requirements:" then extractReqs rest (some true)
    else if strContains s "Non-functional Requirements:" then extractReqs rest (some false)
    else
      let p := extractReqs rest cur
      match cur with
      | some true => if s ≠ "" then (s :: p.1, p.2) else p
      | some false => if s ≠ "" then (p.1, s :: p.2) else p
      | none => p

/-- `AnalysisAgent._generate_acceptance_criteria`: split the requirements
on blank lines, take the first section as user story, bucket the rest,
and instantiate the fixed criteria template. -/
def generate_acceptance_criteria (requirements : String) : String :=
  let sections := pySplitOn requirements "\n\n"
  let user_story := pyStrip (sections.headD "")
  let reqs := extractReqs (sections.drop 1) none
  "# Acceptance Criteria\n\n## User Story\n" ++ user_story ++
  "\n\n## Functional Acceptance Criteria\n\n### Core Functionality\nGiven the application requirements\nWhen implementing the core features\nThen the system should:\n" ++
  format_requirements reqs.1 ++
  "\n\n## Non-Functional Acceptance Criteria\n\n### System Requirements\nGiven the non-functional requirements\nWhen implementing the system\nThen it should meet the following criteria:\n" ++
  format_requirements reqs.2 ++
  "\n\n## Validation Methods\n1. Unit tests for all core functionality\n2. Integration tests for system interactions\n3. Performance tests for response times\n4. Security testing for data protection\n5. Usability testing with target users\n\n## Open Questions and Risks\n1. Are there any specific performance benchmarks to meet?\n2. What are the expected user load and scalability requirements?\n3. Are there any specific security compliance requirements?\n4. What are the target platforms and devices?\n"

/-- Result dict of `AnalysisAgent.process` (the keys consumed by the
workflow: success, acceptance_criteria, error, metadata). -/
structure AgentResult where
  success : Bool
  acceptance_criteria : String := ""
  error : String := ""
  metadata : List (String × MetaVal) := []
deriving DecidableEq, Repr

/-- `AnalysisAgent.process`: empty requirements raise ValueError which
`handle_failure` converts to a failure result; otherwise the criteria are
generated, written through `save_artifact` to the acceptance-criteria
path, and returned with the agent metadata. -/
def analysis_agent_process (requirements : String) : AgentResult × List Event :=
  if requirements = "" then
    ({ success := false, error := "No requirements provided" }, [])
  else
    let criteria := generate_acceptance_criteria requirements
    ({ success := true, acceptance_criteria := criteria,
       metadata := [("source_requirements", MetaVal.str requirements),
                    ("criteria_length", MetaVal.num (pyLen criteria))] },
     [Event.write ACCEPTANCE_CRITERIA_PATH criteria])

/-- Heading test mirroring the anchored regex search
`re.search(r'^<hashes>\s*<title>', line.lower())` on an already stripped,
lowercased line: the line starts with the hash prefix, then optional
whitespace, then the title. -/
def headingMatch (hashes title low : String) : Bool :=
  pyStartsWith low hashes &&
    pyStartsWith (pyLStrip (pyDrop low (pyLen hashes))) title

/-- Lookahead content collection of the validator: stripped nonempty lines
of the raw tail until a line matching `^##\s*` (i.e. starting with "##"). -/
def sectionContent (rest : List String) : List String :=
  (rest.takeWhile (fun l => ¬ pyStartsWith l "##")).filterMap (fun l =>
    let t := pyStrip l
    if t = "" then none else some t)

/-- The line scan of `_validate_acceptance_criteria`: for every stripped
nonempty line the elif chain marks the first matching section heading as
found and stores its lookahead content.  The current_section variable of
the source is tracked but never consulted for any decision and is
omitted. -/
def scanLines : List String → SectionScan → SectionScan
  | [], acc => acc
  | line :: rest, acc =>
    let stripped := pyStrip line
    if stripped = "" then scanLines rest acc
    else
      let low := pyLower stripped
      if headingMatch "#" "acceptance criteria" low then
        scanLines rest { acc with
          acceptance_criteria_heading_found := true,
          acceptance_criteria_heading_content := stripped }
      else if headingMatch "##" "user story" low then
        scanLines rest { acc with
          user_story_found := true,
          user_story_content := pyJoin "\n" (sectionContent rest) }
      else if headingMatch "##" "functional acceptance criteria" low then
        scanLines rest { acc with
          functional_criteria_found := true,
          functional_criteria_content := sectionContent rest }
      else if headingMatch "##" "non-functional acceptance criteria" low then
        scanLines rest { acc with
          non_functional_criteria_found := true,
          non_functional_criteria_content := sectionContent rest }
      else if headingMatch "##" "validation methods" low then
        scanLines rest { acc with
          validation_methods_found := true,
          validation_methods_content := pyJoin "\n" (sectionContent rest) }
      else if headingMatch "##" "open questions" low then
        scanLines rest { acc with
          open_questions_found := true,
          open_questions_content := pyJoin "\n" (sectionContent rest) }
      else scanLines rest acc

/-- Failure collection of `_validate_acceptance_criteria`, iterating the
sections dict in insertion order: a required section that was not found,
or was found with falsy (empty) content, contributes one failure. -/
def sectionFailures (sc : SectionScan) : List VFailure :=
  let check : String → Bool → Bool → List VFailure := fun name found contentEmpty =>
    if ¬ found then
      [{ sectionName := name, reason := "Missing required section: " ++ name }]
    else if contentEmpty then
      [{ sectionName := name, reason := "Section " ++ name ++ " is empty" }]
    else []
  check "acceptance_criteria_heading" sc.acceptance_criteria_heading_found
    (sc.acceptance_criteria_heading_content = "") ++
  check "user_story" sc.user_story_found (sc.user_story_content = "") ++
  check "functional_criteria" sc.functional_criteria_found
    (sc.functional_criteria_content = []) ++
  check "non_functional_criteria" sc.non_functional_criteria_found
    (sc.non_functional_criteria_content = []) ++
  check "validation_methods" sc.validation_methods_found
    (sc.validation_methods_content = "") ++
  check "open_questions" sc.open_questions_found (sc.open_questions_content = "")

/-- `OutputValidationAgent._validate_acceptance_criteria`: scan the lines,
collect failures, and set the overall reason string.  The requirements
argument is accepted and unused, as in the source. -/
def validate_acceptance_criteria (criteria _requirements : String) :
    Bool × VDetails :=
  let sc := scanLines (pySplitOn criteria "\n") {}
  let fails := sectionFailures sc
  let is_valid := fails.length = 0
  let reason :=
    if is_valid then "Validation successful"
    else "Validation failed:\n" ++
      pyJoin "\n" (fails.map (fun f => "- " ++ f.reason))
  (is_valid, { sections := sc, reason := reason, failures := fails })

/-- `OutputValidationAgent._validate_output`: dispatch on the output type.
For an unknown type the source returns a dict with only reason and empty
details; it is embedded as a VDetails with default sections and no
itemized failures. -/
def validate_output (output_type output_data original_requirements : String) :
    Bool × VDetails :=
  if output_type = "acceptance_criteria" then
    validate_acceptance_criteria output_data original_requirements
  else
    (false, { sections := {}, reason := "Unknown output type: " ++ output_type,
              failures := [] })

/-- Result dict of `OutputValidationAgent.process`. -/
structure PVResult where
  success : Bool
  needs_retry : Bool
  needs_human : Bool
  retry_count : Nat
  reason : String
  validation_details : VDetails
deriving DecidableEq, Repr

/-- `OutputValidationAgent.process`: the guard raises ValueError on a falsy
output type or output data, which `handle_failure` turns into a dict
missing every key the workflow reads afterwards — embedded as `none`.
Otherwise validation runs and the retry / human flags are derived from the
hardcoded cap 3 of the agent. -/
def validation_agent_process (output_type output_data original_requirements : String)
    (retry_count : Nat) : Option PVResult :=
  if output_type = "" ∨ output_data = "" then none
  else
    let r := validate_output output_type output_data original_requirements
    let needs_retry := ¬ r.1 ∧ retry_count < 3
    let needs_human := ¬ r.1 ∧ retry_count ≥ 3
    some { success := r.1, needs_retry := needs_retry, needs_human := needs_human,
           retry_count := if needs_retry then retry_count + 1 else retry_count,
           reason := r.2.reason, validation_details := r.2 }

/-- The keys `HumanInterventionAgent.process` reads from its input dict.
The workflow call site passes a dict with keys requirements /
acceptance_criteria / error_message, none of which is read, so every field
below is absent (`none`) for that call. -/
structure HIInput where
  stage : Option String := none
  output_type : Option String := none
  output_data : Option String := none
  error_context : Option String := none

/-- Result dict of `HumanInterventionAgent.process` (consumed keys).  Note
the success payload key is updated_output; the result never carries an
acceptance_criteria key. -/
structure HIResult where
  success : Bool
  updated_output : Option String := none
  error : Option String := none
deriving DecidableEq, Repr

/-- Python truthiness of an optional string (absent and empty are falsy). -/
def truthyOpt : Option String → Bool
  | none => false
  | some s => s ≠ ""

/-- `HumanInterventionAgent._create_review_request` template. -/
def create_review_request (stage output_type output_data : String)
    (error_context : Option String) : String :=
  "\n# Human Review Request\n\n## Stage: " ++ stage ++
  "\n## Output Type: " ++ output_type ++
  "\n\n### Error Context\n" ++
  (match error_context with
   | none => "No error context provided"
   | some s => if s = "" then "No error context provided" else s) ++
  "\n\n### Output to Review\n" ++ output_data ++
  "\n\n### Actions Required\n1. Review the output above\n2. Make necessary corrections\n3. Approve or reject the changes\n\nPlease provide your feedback below:\n"

/-- Simulated human feedback dict. -/
structure HumanFeedback where
  approved : Bool
  updated_output : Option String
  changes_made : Bool
  feedback : String
deriving DecidableEq, Repr

/-- `HumanInterventionAgent._simulate_human_feedback`: the placeholder
always approves with the review request text as updated output. -/
def simulate_human_feedback (review_request : String) : HumanFeedback :=
  { approved := true, updated_output := some review_request,
    changes_made := false, feedback := "Output looks good" }

/-- `HumanInterventionAgent._get_output_path`. -/
def get_output_path (output_type : String) : Option String :=
  if output_type = "acceptance_criteria" then some ACCEPTANCE_CRITERIA_PATH
  else if output_type = "design_document" then some DESIGN_DOC_PATH
  else if output_type = "developer_document" then some DEVELOPER_DOC_PATH
  else if output_type = "generated_code" then some GENERATED_CODE_PATH
  else none

/-- `HumanInterventionAgent.process`: missing stage / output type / output
data raise ValueError, converted by `handle_failure` into a failure dict;
otherwise the review request is built, the simulated feedback is taken,
and on approval the updated output is saved and returned under the
updated_output key. -/
def human_intervention_process (input : HIInput) : HIResult × List Event :=
  if ¬ (truthyOpt input.stage ∧ truthyOpt input.output_type ∧ truthyOpt input.output_data) then
    ({ success := false, error := some "Missing required intervention inputs" }, [])
  else
    let stage := input.stage.getD ""
    let output_type := input.output_type.getD ""
    let output_data := input.output_data.getD ""
    let review_request := create_review_request stage output_type output_data input.error_context
    let feedback := simulate_human_feedback review_request
    if feedback.approved then
      let updated_output := feedback.updated_output.getD output_data
      let evs :=
        match get_output_path output_type with
        | some p => [Event.write p updated_output]
        | none => []
      ({ success := true, updated_output := some updated_output }, evs)
    else
      ({ success := false, error := some "Human rejected the output" }, [])

/-- `AnalysisWorkflow._analyze_requirements`: no-op on a terminal state;
empty requirements raise ValueError, caught by the phase-boundary except
into a terminal failure; on generator success the criteria are stored, the
metadata mapping is replaced wholesale by the agent metadata
(`state_obj.metadata = result.get("metadata", {})`), the error is cleared
and current_step is set to "validate". -/
def analyze_requirements (s : AnalysisState) : AnalysisState × List Event :=
  if s.is_complete then (s, [])
  else if s.requirements = "" then
    ({ s with error_message := "Analysis failed: No requirements provided",
              validation_status := false, is_complete := true,
              current_step := "end" }, [])
  else
    let r := analysis_agent_process s.requirements
    if r.1.success then
      ({ s with acceptance_criteria := r.1.acceptance_criteria,
                metadata := r.1.metadata,
                error_message := "", validation_status := false,
                current_step := "validate" }, r.2)
    else
      ({ s with error_message := "Analysis failed: " ++ r.1.error,
                validation_status := false, is_complete := true,
                current_step := "end" }, r.2)

/-- `AnalysisWorkflow._validate_criteria`: no-op on a terminal state; empty
criteria raise ValueError, caught by the except branch which records the
error details, bumps retry_count and routes to retry; otherwise the
validation agent runs, its outcome and details are stored, and the three
branches (pass / needs human / retry) update the state as in the source.
The `none` branch of the agent call is unreachable here (output type is a
nonempty literal and the criteria were just checked nonempty): it embeds
the KeyError the source would raise reading needs_human from a
`handle_failure` dict. -/
def validate_criteria (s : AnalysisState) : AnalysisState × List Event :=
  if s.is_complete then (s, [])
  else if s.acceptance_criteria = "" then
    ({ s with error_message := "Validation failed: No acceptance criteria to validate",
              validation_status := false,
              metadata := dictSet s.metadata "validation_details"
                (MetaVal.errDetails "No acceptance criteria to validate"),
              current_step := "retry", retry_count := s.retry_count + 1 }, [])
  else
    match validation_agent_process "acceptance_criteria" s.acceptance_criteria
        s.requirements s.retry_count with
    | none =>
      ({ s with error_message := "Validation failed: KeyError needs_human",
                validation_status := false,
                metadata := dictSet s.metadata "validation_details"
                  (MetaVal.errDetails "KeyError needs_human"),
                current_step := "retry", retry_count := s.retry_count + 1 }, [])
    | some vr =>
      let s1 := { s with validation_status := vr.success,
                         metadata := dictSet s.metadata "validation_details"
                           (MetaVal.details vr.validation_details) }
      if vr.success then
        ({ s1 with is_complete := true, current_step := "end" },
         [Event.write ACCEPTANCE_CRITERIA_PATH s1.acceptance_criteria])
      else if vr.needs_human then
        ({ s1 with current_step := "human_intervention",
                   error_message := "Validation failed after maximum retries" }, [])
      else
        ({ s1 with current_step := "retry", retry_count := vr.retry_count,
                   error_message := vr.reason, acceptance_criteria := "" }, [])

/-- `AnalysisWorkflow._handle_human_intervention`: no-op on a terminal
state.  The call site builds an input dict with keys requirements /
acceptance_criteria / error_message; the agent reads stage / output_type /
output_data, all absent, so the agent always returns the failure result.
The success branch of the source reads `result["acceptance_criteria"]`, a
key the agent result never carries, and would end in the except branch
with the KeyError recorded; it is unreachable from this call site. -/
def handle_human_intervention (s : AnalysisState) : AnalysisState × List Event :=
  if s.is_complete then (s, [])
  else
    let r := human_intervention_process {}
    if r.1.success then
      ({ s with error_message := "Human intervention failed: KeyError acceptance_criteria",
                validation_status := false, is_complete := true,
                current_step := "end" }, r.2)
    else
      ({ s with error_message := "Human intervention failed: " ++
                  (r.1.error.getD "Human intervention failed"),
                validation_status := false, is_complete := true,
                current_step := "end" }, r.2)

/-- `AnalysisWorkflow._should_validate`.  The source mutates nothing here;
it only returns a branch label. -/
def should_validate (s : AnalysisState) : String :=
  if s.is_complete ∨ s.error_message ≠ "" then "end"
  else if s.current_step = "analyze" then "validate"
  else "end"

/-- `AnalysisWorkflow._should_retry`.  The source mutates a local copy of
the state (is_complete, current_step) but LangGraph never writes a router
mutation back to the graph channels; only the returned label matters. -/
def should_retry (s : AnalysisState) : String :=
  if s.is_complete ∨ s.error_message ≠ "" then "end"
  else if s.validation_status then "end"
  else if s.retry_count ≥ max_retries then "human_intervention"
  else "retry"

/-- `AnalysisWorkflow._should_end`. -/
def should_end (s : AnalysisState) : String :=
  if s.is_complete ∨ s.error_message ≠ "" then "end"
  else if s.validation_status then "end"
  else "retry"

/-- The conditional-edge mapping of `create_workflow`: which node follows
the given node for the label its router returns. -/
def route : Node → AnalysisState → Node
  | Node.analyze, s => if should_validate s = "validate" then Node.validate else Node.done
  | Node.validate, s =>
      let d := should_retry s
      if d = "retry" then Node.analyze
      else if d = "human_intervention" then Node.human
      else Node.done
  | Node.human, s => if should_end s = "retry" then Node.analyze else Node.done
  | Node.done, _ => Node.done

/-- The compiled-graph driver: starting from the entry node, invoke the
current node handler, follow the conditional edge, stop at END.  The fuel
mirrors the LangGraph recursion limit (default 25 steps); exhausting it
raises GraphRecursionError, embedded as `none`. -/
def loop : Nat → Node → AnalysisState → List Event →
    Option (AnalysisState × List Event)
  | 0, _, _, _ => none
  | _ + 1, Node.done, s, tr => some (s, tr)
  | fuel + 1, Node.analyze, s, tr =>
      let p := analyze_requirements s
      loop fuel (route Node.analyze p.1) p.1 (tr ++ Event.invoke Node.analyze :: p.2)
  | fuel + 1, Node.validate, s, tr =>
      let p := validate_criteria s
      loop fuel (route Node.validate p.1) p.1 (tr ++ Event.invoke Node.validate :: p.2)
  | fuel + 1, Node.human, s, tr =>
      let p := handle_human_intervention s
      loop fuel (route Node.human p.1) p.1 (tr ++ Event.invoke Node.human :: p.2)

/-- The LangGraph default recursion limit. -/
def recursion_limit : Nat := 25

/-- The initial state built by `run`. -/
def initState (requirements : String) : AnalysisState :=
  { requirements := requirements, current_step := "analyze" }

/-- The dict returned by `AnalysisWorkflow.run`: the final state fields
(with the error_message possibly replaced by the validation-details
reason) plus the success flag.  `workflow_failed` marks the outer except
branch of `run`, whose dict carries only success and error_message. -/
structure RunResult where
  success : Bool
  final : AnalysisState
  workflow_failed : Bool
deriving DecidableEq, Repr

/-- `AnalysisWorkflow.run`: build the initial state, drive the compiled
graph, then augment the final state with `success` (true iff
error_message is falsy) and, on failure with validation details present,
replace error_message by the details reason (defaulting to the existing
message when the details dict has no reason key). -/
def run_workflow (requirements : String) : RunResult × List Event :=
  match loop recursion_limit Node.analyze (initState requirements) [] with
  | some (fs, tr) =>
      let success := fs.error_message = ""
      let final :=
        if success then fs
        else
          match dictGet fs.metadata "validation_details" with
          | some v => { fs with error_message := (reasonOf v).getD fs.error_message }
          | none => fs
      ({ success := success, final := final, workflow_failed := false }, tr)
  | none =>
      ({ success := false,
         final := { initState requirements with
                      error_message := "Workflow failed: GraphRecursionError" },
         workflow_failed := true }, [])

/-- Number of node-handler invocations recorded in a trace. -/
def countInvokes (tr : List Event) : Nat :=
  (tr.filter (fun e => match e with | Event.invoke _ => true | _ => false)).length

/-- The metadata dict returned by a successful `AnalysisAgent.process`. -/
def agentMetadata (reqs : String) : List (String × MetaVal) :=
  [("source_requirements", MetaVal.str reqs),
   ("criteria_length", MetaVal.num (pyLen (generate_acceptance_criteria reqs)))]

/-- The state produced by the analyze handler on a fresh initial state with
nonempty requirements. -/
def postAnalyze (reqs : String) : AnalysisState :=
  { requirements := reqs,
    acceptance_criteria := generate_acceptance_criteria reqs,
    validation_status := false, retry_count := 0, error_message := "",
    metadata := agentMetadata reqs, is_complete := false,
    current_step := "validate" }

/-- A terminal state used to exercise the idempotence guard. -/
def doneState : AnalysisState :=
  { requirements := "req", acceptance_criteria := "text",
    validation_status := true, retry_count := 2, error_message := "",
    metadata := [("note", MetaVal.str "kept")], is_complete := true,
    current_step := "end" }

/-- A pre-validation state whose criteria fail the structural checks, with
the retry budget not yet consumed. -/
def failedValidationState : AnalysisState :=
  { requirements := "r", acceptance_criteria := "bad",
    validation_status := false, retry_count := 0, error_message := "",
    metadata := [], is_complete := false, current_step := "validate" }

/-- A pre-validation state whose criteria fail the structural checks after
the retry budget is exhausted. -/
def cappedValidateState : AnalysisState :=
  { requirements := "r", acceptance_criteria := "bad",
    validation_status := false, retry_count := 3, error_message := "",
    metadata := [], is_complete := false, current_step := "validate" }

/-- The state on which the ESCALATE handler runs after validation failed at
the retry cap. -/
def escalationState : AnalysisState :=
  { requirements := "R", acceptance_criteria := "C",
    validation_status := false, retry_count := 3,
    error_message := "Validation failed after maximum retries",
    metadata := [], is_complete := false,
    current_step := "human_intervention" }

/-- The state reached by running the analyze handler and then the validate
handler on fresh requirements "R": the generated document fails the
structural scan (its functional and non-functional sections are scanned as
empty because the lookahead stops at the "###" subheadings), so this is
the state from which the retry edge would re-enter ANALYZE. -/
def retryState : AnalysisState :=
  (validate_criteria (analyze_requirements (initState "R")).1).1

/-- A non-terminal state carrying a pre-existing metadata key, used to
witness key preservation by the validate and escalation handlers. -/
def metaKeyState : AnalysisState :=
  { requirements := "", acceptance_criteria := "",
    validation_status := false, retry_count := 0, error_message := "",
    metadata := [("note", MetaVal.str "v")], is_complete := false,
    current_step := "validate" }

/-- Dict assignment never removes a key: anything present in the mapping is
still present after `dictSet`. -/
theorem dictGet_dictSet_isSome (m : List (String × MetaVal)) (k key : String)
    (v : MetaVal) (h : (dictGet m k).isSome = true) :
    (dictGet (dictSet m key v) k).isSome = true := by
  induction m with
  | nil => simp [dictGet] at h
  | cons p rest ih =>
    obtain ⟨k0, v0⟩ := p
    by_cases hk : k0 = key
    · subst hk
      by_cases hkk : k0 = k
      · simp [dictSet, dictGet, hkk]
      · simp [dictSet, dictGet, hkk] at h ⊢
        exact h
    · by_cases hkk : k0 = k
      · subst hkk
        simp [dictSet, dictGet, hk]
      · simp [dictSet, dictGet, hk, hkk] at h ⊢
        exact ih h

/-- Unfolding of the analyze handler on a fresh state with nonempty
requirements. -/
theorem analyze_init (reqs : String) (h : reqs ≠ "") :
    analyze_requirements (initState reqs) =
      (postAnalyze reqs,
       [Event.write ACCEPTANCE_CRITERIA_PATH (generate_acceptance_criteria reqs)]) := by
  simp [analyze_requirements, initState, analysis_agent_process, postAnalyze,
        agentMetadata, h]

/-- After a successful generation the router `_should_validate` sees
current_step = "validate", not "analyze", and therefore routes to END. -/
theorem route_postAnalyze (reqs : String) :
    route Node.analyze (postAnalyze reqs) = Node.done := rfl

/-- Driver equation: END returns the state. -/
theorem loop_done (f : Nat) (s : AnalysisState) (tr : List Event) :
    loop (f + 1) Node.done s tr = some (s, tr) := rfl

/-- Driver equation: one analyze step. -/
theorem loop_analyze (f : Nat) (s : AnalysisState) (tr : List Event) :
    loop (f + 1) Node.analyze s tr =
      loop f (route Node.analyze (analyze_requirements s).1)
        (analyze_requirements s).1
        (tr ++ Event.invoke Node.analyze :: (analyze_requirements s).2) := rfl

/-- A run whose first analyze step routes directly to END terminates after
that single handler invocation. -/
theorem loop_run_one (f : Nat) (s0 s1 : AnalysisState) (evs tr : List Event)
    (h1 : analyze_requirements s0 = (s1, evs))
    (h2 : route Node.analyze s1 = Node.done) :
    loop (f + 2) Node.analyze s0 tr =
      some (s1, tr ++ Event.invoke Node.analyze :: evs) := by
  have e : f + 2 = (f + 1) + 1 := rfl
  rw [e, loop_analyze (f + 1) s0 tr, h1, h2]
  exact loop_done f s1 (tr ++ Event.invoke Node.analyze :: evs)

/-- Full characterization of `run` on nonempty requirements: the generator
runs once, the router ends the graph, and the run reports success with the
unvalidated generated criteria. -/
theorem run_workflow_nonempty (reqs : String) (h : reqs ≠ "") :
    run_workflow reqs =
      ({ success := true, final := postAnalyze reqs, workflow_failed := false },
       [Event.invoke Node.analyze,
        Event.write ACCEPTANCE_CRITERIA_PATH (generate_acceptance_criteria reqs)]) := by
  have hl := loop_run_one 23 (initState reqs) (postAnalyze reqs)
    [Event.write ACCEPTANCE_CRITERIA_PATH (generate_acceptance_criteria reqs)] []
    (analyze_init reqs h) (route_postAnalyze reqs)
  unfold run_workflow
  rw [show recursion_limit = 23 + 2 from rfl, hl]
  simp [postAnalyze]

/-- C1: the claim states that every successful generation transitions
ANALYZE → VALIDATE, invoking the validation handler on the generated
criteria.  The code refutes it: the analyze handler sets current_step to
"validate" and the router `_should_validate` then requires current_step =
"analyze", so it returns "end" and the graph terminates without ever
invoking the validate node — the run on requirements "R" succeeds with
generated criteria, yet no validate invocation occurs and
validation_status stays false. -/
theorem analyze_never_reaches_validation :
    (run_workflow "R").1.success = true ∧
    (run_workflow "R").1.final.acceptance_criteria ≠ "" ∧
    (run_workflow "R").1.final.validation_status = false ∧
    Event.invoke Node.validate ∉ (run_workflow "R").2 ∧
    should_validate (analyze_requirements (initState "R")).1 = "end" := by
  decide

/-- C2: the claim states the escalation guarantee — no run terminates with
validation_passed = false without an escalation attempt.  The code refutes
it: the run on requirements "Some requirements" terminates reporting
success with validation_status = false and with neither the validator nor
the escalation handler ever invoked; moreover even at router level a
validation failure at the retry cap sets a nonempty error_message, which
makes `_should_retry` return "end" instead of "human_intervention", so the
escalation node is unreachable. -/
theorem unvalidated_done_without_escalation :
    (run_workflow "Some requirements").1.workflow_failed = false ∧
    (run_workflow "Some requirements").1.success = true ∧
    (run_workflow "Some requirements").1.final.validation_status = false ∧
    Event.invoke Node.human ∉ (run_workflow "Some requirements").2 ∧
    Event.invoke Node.validate ∉ (run_workflow "Some requirements").2 ∧
    (validate_criteria cappedValidateState).1.current_step = "human_intervention" ∧
    route Node.validate (validate_criteria cappedValidateState).1 = Node.done := by
  decide

/-- C3: the claim states that a failed validation below the retry cap
transitions back to ANALYZE with retry_count incremented, criteria cleared
and the reason recorded.  The handler indeed performs that bookkeeping,
but the router `_should_retry` sees the nonempty error_message the handler
just recorded and returns "end": the graph terminates instead of
re-entering ANALYZE, so the fails-twice-then-passes scenario cannot return
retry_count = 2. -/
theorem failed_validation_never_retries :
    (validate_criteria failedValidationState).1.retry_count =
      failedValidationState.retry_count + 1 ∧
    (validate_criteria failedValidationState).1.acceptance_criteria = "" ∧
    (validate_criteria failedValidationState).1.error_message ≠ "" ∧
    (validate_criteria failedValidationState).1.current_step = "retry" ∧
    should_retry (validate_criteria failedValidationState).1 = "end" ∧
    route Node.validate (validate_criteria failedValidationState).1 = Node.done := by
  decide

/-- C4: the claim states that an approving escalation replaces the criteria
and ends the run successfully.  The code refutes it: the workflow passes
the intervention agent a dict without the stage / output_type / output_data
keys the agent requires, so the agent fails before the (always-approving)
simulated reviewer is ever consulted; the handler leaves the criteria
unchanged and terminates with a failure message. -/
theorem escalation_approval_never_applied :
    (simulate_human_feedback
      (create_review_request "analysis" "acceptance_criteria" "C" none)).approved = true ∧
    (handle_human_intervention escalationState).1.acceptance_criteria =
      escalationState.acceptance_criteria ∧
    (handle_human_intervention escalationState).1.validation_status = false ∧
    (handle_human_intervention escalationState).1.is_complete = true ∧
    (handle_human_intervention escalationState).1.error_message =
      "Human intervention failed: Missing required intervention inputs" := by
  decide

/-- C5: for every input the driver loop terminates — the recursion limit is
never hit — and the number of node-handler invocations stays within
max_retries + 2 (every run in fact performs exactly one). -/
theorem run_terminates_within_bound (reqs : String) :
    (run_workflow reqs).1.workflow_failed = false ∧
    countInvokes (run_workflow reqs).2 ≤ max_retries + 2 := by
  by_cases h : reqs = ""
  · subst h
    decide
  · rw [run_workflow_nonempty reqs h]
    simp [countInvokes, max_retries]

/-- C5 witness: the bound evaluated on a concrete run. -/
theorem run_terminates_within_bound_witness :
    (run_workflow "R").1.workflow_failed = false ∧
    countInvokes (run_workflow "R").2 ≤ max_retries + 2 :=
  run_terminates_within_bound "R"

/-- C6: a run on empty requirements fails immediately: success is false,
the error message is nonempty, no retry is consumed, and neither the
validator nor the escalation handler is invoked. -/
theorem empty_requirements_fail_fast :
    (run_workflow "").1.success = false ∧
    (run_workflow "").1.final.error_message ≠ "" ∧
    (run_workflow "").1.final.retry_count = 0 ∧
    Event.invoke Node.validate ∉ (run_workflow "").2 ∧
    Event.invoke Node.human ∉ (run_workflow "").2 := by
  decide

/-- C7: for every input the result of `run` has success = true exactly when
its error_message is empty. -/
theorem run_success_iff_error_empty (reqs : String) :
    (run_workflow reqs).1.success = true ↔
    (run_workflow reqs).1.final.error_message = "" := by
  by_cases h : reqs = ""
  · subst h
    decide
  · rw [run_workflow_nonempty reqs h]
    simp [postAnalyze]

/-- C7 witness: the equivalence evaluated on a concrete run. -/
theorem run_success_iff_error_empty_witness :
    (run_workflow "R").1.success = true ↔
    (run_workflow "R").1.final.error_message = "" :=
  run_success_iff_error_empty "R"

/-- C8: every phase handler checks the terminal flag first and returns the
state unchanged (with no side effects) when it is set. -/
theorem terminal_state_handlers_noop (s : AnalysisState)
    (h : s.is_complete = true) :
    analyze_requirements s = (s, []) ∧
    validate_criteria s = (s, []) ∧
    handle_human_intervention s = (s, []) := by
  unfold analyze_requirements validate_criteria handle_human_intervention
  simp [h]

/-- C8 witness: the no-op evaluated on a concrete terminal state. -/
theorem terminal_state_handlers_noop_witness :
    doneState.is_complete = true ∧
    (analyze_requirements doneState = (doneState, []) ∧
     validate_criteria doneState = (doneState, []) ∧
     handle_human_intervention doneState = (doneState, [])) :=
  ⟨by decide, terminal_state_handlers_noop doneState (by decide)⟩

set_option maxRecDepth 100000 in
/-- C9 counterexample: metadata keys are not always preserved by a phase
handler.  The reachable chain analyze → validate on requirements "R"
leaves a non-terminal state whose metadata holds the validation_details
key; running the analyze handler on it (the exact re-entry the retry edge
prescribes) replaces the metadata wholesale with the generator metadata,
removing that key. -/
theorem metadata_key_removed_on_reanalysis :
    (dictGet retryState.metadata "validation_details").isSome = true ∧
    retryState.is_complete = false ∧
    dictGet (analyze_requirements retryState).1.metadata "validation_details" =
      none := by
  decide

/-- C9 amended: metadata only accumulates across the validate and
human-intervention handlers — every key present before either runs is
still present after; the analyze handler preserves metadata only on
terminal or failing states, and on successful generation replaces it
wholesale with the generator metadata. -/
theorem metadata_keys_accumulate (s : AnalysisState) (k : String)
    (h : (dictGet s.metadata k).isSome = true) :
    (dictGet (validate_criteria s).1.metadata k).isSome = true ∧
    (dictGet (handle_human_intervention s).1.metadata k).isSome = true := by
  constructor
  · unfold validate_criteria
    by_cases hc : s.is_complete = true
    · simpa [hc] using h
    · by_cases he : s.acceptance_criteria = ""
      · simpa [hc, he] using
          dictGet_dictSet_isSome s.metadata k "validation_details" _ h
      · cases hv : validation_agent_process "acceptance_criteria"
            s.acceptance_criteria s.requirements s.retry_count with
        | none =>
          simpa [hc, he, hv] using
            dictGet_dictSet_isSome s.metadata k "validation_details" _ h
        | some vr =>
          by_cases hs : vr.success = true
          · simpa [hc, he, hv, hs] using
              dictGet_dictSet_isSome s.metadata k "validation_details" _ h
          · by_cases hh : vr.needs_human = true
            · simpa [hc, he, hv, hs, hh] using
                dictGet_dictSet_isSome s.metadata k "validation_details" _ h
            · simpa [hc, he, hv, hs, hh] using
                dictGet_dictSet_isSome s.metadata k "validation_details" _ h
  · unfold handle_human_intervention
    by_cases hc : s.is_complete = true
    · simpa [hc] using h
    · simpa [hc, human_intervention_process, truthyOpt] using h

/-- C9 witness: key preservation by the validate and escalation handlers on
a concrete state carrying a metadata key. -/
theorem metadata_keys_accumulate_witness :
    (dictGet metaKeyState.metadata "note").isSome = true ∧
    ((dictGet (validate_criteria metaKeyState).1.metadata "note").isSome = true ∧
     (dictGet (handle_human_intervention metaKeyState).1.metadata "note").isSome = true) :=
  ⟨by decide, metadata_keys_accumulate metaKeyState "note" (by decide)⟩

/-- C10: every successful generation persists the freshly generated,
not-yet-validated criteria to the acceptance-criteria path: the agent
itself reports success and emits the write unconditionally (it has no
access to any validation outcome), the write appears in the run trace, and
no validator invocation precedes it in the trace. -/
theorem generation_persists_unvalidated (reqs : String) (h : reqs ≠ "") :
    (analysis_agent_process reqs).1.success = true ∧
    (analysis_agent_process reqs).2 =
      [Event.write ACCEPTANCE_CRITERIA_PATH (generate_acceptance_criteria reqs)] ∧
    Event.write ACCEPTANCE_CRITERIA_PATH (generate_acceptance_criteria reqs) ∈
      (run_workflow reqs).2 ∧
    ∀ tr1 tr2, (run_workflow reqs).2 = tr1 ++ Event.invoke Node.validate :: tr2 →
      Event.write ACCEPTANCE_CRITERIA_PATH (generate_acceptance_criteria reqs) ∈ tr1 := by
  rw [run_workflow_nonempty reqs h]
  refine ⟨?_, ?_, ?_, ?_⟩
  · simp [analysis_agent_process, h]
  · simp [analysis_agent_process, h]
  · simp
  · intro tr1 tr2 heq
    rcases tr1 with _ | ⟨e1, _ | ⟨e2, tr⟩⟩
    · simp at heq
    · simp at heq
    · simp at heq

/-- C10 witness: the persistence property evaluated at requirements "R". -/
theorem generation_persists_unvalidated_witness :
    ("R" : String) ≠ "" ∧
    ((analysis_agent_process "R").1.success = true ∧
     (analysis_agent_process "R").2 =
       [Event.write ACCEPTANCE_CRITERIA_PATH (generate_acceptance_criteria "R")] ∧
     Event.write ACCEPTANCE_CRITERIA_PATH (generate_acceptance_criteria "R") ∈
       (run_workflow "R").2 ∧
     ∀ tr1 tr2, (run_workflow "R").2 = tr1 ++ Event.invoke Node.validate :: tr2 →
       Event.write ACCEPTANCE_CRITERIA_PATH (generate_acceptance_criteria "R") ∈ tr1) :=
  ⟨by decide, generation_persists_unvalidated "R" (by decide)⟩
